import Mathlib

/-!
Shallow embedding of `src/main.py`, a FastAPI webhook receiver that mirrors
Airtable records into a Postgres table keyed on the column `airtable_id`.

Modelling conventions:
  - A Python payload value (`Any`) is modelled by `Value`; Python `None`
    (returned by `dict.get` for a missing key and also a possible stored
    value) is modelled by `Option.none`, so a Field Set is a partial map
    `String → Option Value`.
  - The Postgres table is modelled as a list of rows; executing the
    parameterized INSERT built by `build_insert_query` with parameters
    `[airtable_id] + build_values_from_fields fields` appends the row
    whose identifier column is `airtable_id` and whose mapped columns are
    `build_values_from_fields fields`; executing the UPDATE built by
    `build_update_query` with parameters
    `build_values_from_fields fields + [airtable_id]` rewrites the mapped
    columns of every row whose identifier column equals `airtable_id`.
  - `cursor.fetchone` on the SELECT of `find_record_by_id` returns the
    first matching row or `None`, modelled by `List.find?`.
  - The query strings are built character for character as the Python
    f-strings do, with the table name as an explicit argument standing for
    the `PG_TABLE_NAME` environment configuration.
  - The `try/except/finally` block of `airtable_webhook` is modelled by
    `airtable_webhook` below with an explicit fault parameter: `some msg`
    means the database layer raised an exception with message `msg` during
    the sync, in which case the transaction is rolled back (the committed
    state stays at its pre-request value) and a 500 response carries `msg`;
    `none` means the sync ran to completion and was committed. The
    connection is closed in the `finally` clause on both paths.
-/

/-- Payload scalar values (`Any` in the Python model); Python `None` is
represented by `Option.none` around this type, not by a constructor. -/
inductive Value where
  | str : String → Value
  | int : Int → Value
  | bool : Bool → Value
deriving DecidableEq

/-- A Field Set: the `fields` dictionary of the payload. `none` models a
key that is missing (or explicitly `None`, which `dict.get` makes
indistinguishable from missing). -/
abbrev FieldSet := String → Option Value

/-- The fixed ordered list of mapped Airtable field names (`FIELDS_LIST`
in `src/main.py`). -/
def FIELDS_LIST : List String :=
  ["record_id", "Startup name", "PH1_Constitution_Location", "date_sourced"]

/-- `FIELD_MAP = {k: k for k in FIELDS_LIST}`: the identity mapping, as an
ordered association list (Python dicts preserve insertion order and
`FIELDS_LIST` has no duplicates). -/
def FIELD_MAP : List (String × String) :=
  FIELDS_LIST.map (fun k => (k, k))

/-- `FIELD_MAP.keys()` in iteration order. -/
def FIELD_MAP_keys : List String := FIELD_MAP.map Prod.fst

/-- `FIELD_MAP.values()` in iteration order. -/
def FIELD_MAP_values : List String := FIELD_MAP.map Prod.snd

/-- The request body `AirtablePayload(id: str, fields: Dict[str, Any])`. -/
structure AirtablePayload where
  id : String
  fields : FieldSet

/-- `build_values_from_fields`: one value per key of `FIELD_MAP`, in
mapping order, via `fields.get` which defaults to `None` for a missing
key. -/
def build_values_from_fields (fields : FieldSet) : List (Option Value) :=
  FIELD_MAP_keys.map (fun at_name => fields at_name)

/-- `build_insert_query`: the INSERT f-string, with the configured table
name as an argument. -/
def build_insert_query (PG_TABLE_NAME : String) : String :=
  let cols := "airtable_id" :: FIELD_MAP_values
  let col_list := String.intercalate ", " cols
  let placeholders := String.intercalate ", " (List.replicate cols.length "%s")
  "\n        INSERT INTO " ++ PG_TABLE_NAME ++ " (" ++ col_list ++
    ")\n        VALUES (" ++ placeholders ++ ")\n    "

/-- `build_update_query`: the UPDATE f-string, with the configured table
name as an argument. -/
def build_update_query (PG_TABLE_NAME : String) : String :=
  let set_clause := String.intercalate ", " (FIELD_MAP_values.map (fun col => col ++ " = %s"))
  "\n        UPDATE " ++ PG_TABLE_NAME ++ "\n        SET " ++ set_clause ++
    "\n        WHERE airtable_id = %s\n    "

/-- A persisted Target Row: the identifier column `airtable_id` plus the
mapped columns in `FIELDS_LIST` order. -/
structure Row where
  airtable_id : String
  vals : List (Option Value)
deriving DecidableEq

/-- The table state: a list of rows. -/
abbrev DB := List Row

/-- `find_record_by_id`: SELECT by exact identifier match, `fetchone`
returning the first matching row or `None`. -/
def find_record_by_id (db : DB) (airtable_id : String) : Option Row :=
  db.find? (fun r => r.airtable_id == airtable_id)

/-- The parameter list `[airtable_id] + build_values_from_fields(fields)`
that `create_record_in_postgres` passes to `cur.execute`. -/
def create_record_values (airtable_id : String) (fields : FieldSet) : List (Option Value) :=
  some (Value.str airtable_id) :: build_values_from_fields fields

/-- `create_record_in_postgres`: executes the built INSERT with the
parameters of `create_record_values`, which adds the corresponding row. -/
def create_record_in_postgres (db : DB) (airtable_id : String) (fields : FieldSet) : DB :=
  db ++ [⟨airtable_id, build_values_from_fields fields⟩]

/-- The parameter list `build_values_from_fields(fields) + [airtable_id]`
that `update_record_in_postgres` passes to `cur.execute`. -/
def update_record_values (airtable_id : String) (fields : FieldSet) : List (Option Value) :=
  build_values_from_fields fields ++ [some (Value.str airtable_id)]

/-- `update_record_in_postgres`: executes the built UPDATE with the
parameters of `update_record_values`, which sets every mapped column of
every row whose identifier column matches, leaving the identifier column
itself untouched (it is not in the SET clause). -/
def update_record_in_postgres (db : DB) (airtable_id : String) (fields : FieldSet) : DB :=
  db.map (fun r =>
    if r.airtable_id == airtable_id then ⟨r.airtable_id, build_values_from_fields fields⟩ else r)

/-- `sync_airtable_record`: look the identifier up, create when absent and
update when present, returning the action label and the new table state. -/
def sync_airtable_record (db : DB) (payload : AirtablePayload) : String × DB :=
  let airtable_id := payload.id
  let fields := payload.fields
  match find_record_by_id db airtable_id with
  | none => ("created record", create_record_in_postgres db airtable_id fields)
  | some _ => ("updated record", update_record_in_postgres db airtable_id fields)

/-- Observable outcome of one `POST /airtable-webhook` request: HTTP
status, response body pieces, the committed table state after the request,
and whether the connection was closed. -/
structure WebhookResult where
  status : Nat
  success : Option Bool
  action : Option String
  detail : Option String
  db : DB
  connClosed : Bool
deriving DecidableEq

/-- `airtable_webhook`: the endpoint handler. `fault = some msg` models an
exception with message `msg` raised by the database layer during the sync:
the except clause rolls the transaction back and raises
`HTTPException(500, msg)`; `fault = none` models a fault-free run that is
committed. The finally clause closes the connection on both paths. -/
def airtable_webhook (db : DB) (payload : AirtablePayload) (fault : Option String) :
    WebhookResult :=
  match fault with
  | some msg => ⟨500, none, none, some msg, db, true⟩
  | none =>
    let res := sync_airtable_record db payload
    ⟨200, some true, some res.1, none, res.2, true⟩

/-- Number of rows whose identifier column equals `airtable_id`. -/
def rowCount (db : DB) (airtable_id : String) : Nat :=
  db.countP (fun r => r.airtable_id == airtable_id)

/-- Number of occurrences of the character `%` in a string; on the built
queries, whose only `%` characters belong to `%s` placeholders, this
counts the positional placeholders. -/
def countPercent (s : String) : Nat :=
  s.data.countP (fun c => c == '%')

/-- Concrete Field Set used by the worked example of the spec. -/
def exampleFields : FieldSet := fun k =>
  if k == "Startup name" then some (Value.str "Acme")
  else if k == "date_sourced" then some (Value.str "2024-01-01")
  else none

/-- Concrete payload used by the worked example of the spec. -/
def examplePayload : AirtablePayload := ⟨"rec1", exampleFields⟩

-- Shared helper lemmas

theorem field_map_keys_eq : FIELD_MAP_keys = FIELDS_LIST := by decide

theorem build_values_eq_map (fields : FieldSet) :
    build_values_from_fields fields = FIELDS_LIST.map fields := by
  rw [build_values_from_fields, field_map_keys_eq]

theorem build_insert_query_eq (t : String) :
    build_insert_query t =
      "\n        INSERT INTO " ++ t ++ " (" ++
        "airtable_id, record_id, Startup name, PH1_Constitution_Location, date_sourced" ++
        ")\n        VALUES (" ++ "%s, %s, %s, %s, %s" ++ ")\n    " := rfl

theorem build_update_query_eq (t : String) :
    build_update_query t =
      "\n        UPDATE " ++ t ++ "\n        SET " ++
        "record_id = %s, Startup name = %s, PH1_Constitution_Location = %s, date_sourced = %s" ++
        "\n        WHERE airtable_id = %s\n    " := rfl

/-- C1: every sync returns one of the two action labels; when the lookup
finds no row the sync creates, the handler reports success with action
"created record", and exactly one new row for that identifier exists
afterwards (total row count grows by one); when the lookup finds a row the
sync updates and the handler reports action "updated record". -/
theorem c1_webhook_upsert_action (db : DB) (p : AirtablePayload) :
    ((sync_airtable_record db p).1 = "created record"
      ∨ (sync_airtable_record db p).1 = "updated record")
    ∧ (find_record_by_id db p.id = none →
        (sync_airtable_record db p).1 = "created record"
        ∧ (airtable_webhook db p none).success = some true
        ∧ (airtable_webhook db p none).action = some "created record"
        ∧ rowCount (sync_airtable_record db p).2 p.id = 1
        ∧ ((sync_airtable_record db p).2).length = db.length + 1)
    ∧ (∀ r, find_record_by_id db p.id = some r →
        (sync_airtable_record db p).1 = "updated record"
        ∧ (airtable_webhook db p none).action = some "updated record") := by
  refine ⟨?_, ?_, ?_⟩
  · cases hfind : find_record_by_id db p.id <;>
      simp [sync_airtable_record, hfind]
  · intro h
    have h0 : db.countP (fun r => r.airtable_id == p.id) = 0 :=
      List.countP_eq_zero.mpr (fun r hr => List.find?_eq_none.mp h r hr)
    refine ⟨?_, ?_, ?_, ?_, ?_⟩ <;>
      simp [sync_airtable_record, h, airtable_webhook, create_record_in_postgres,
        rowCount, List.countP_append, h0]
  · intro r hr
    refine ⟨?_, ?_⟩ <;> simp [sync_airtable_record, hr, airtable_webhook]

theorem c1_webhook_upsert_action_witness :
    (sync_airtable_record [] examplePayload).1 = "created record"
    ∧ rowCount (sync_airtable_record [] examplePayload).2 examplePayload.id = 1 := by
  have h := (c1_webhook_upsert_action [] examplePayload).2.1 (by decide)
  exact ⟨h.1, h.2.2.2.1⟩

/-- C2: the field mapper produces exactly one entry per mapped field name,
in the fixed mapping order, and an entry is the null/absent marker exactly
when the Field Set lacks that key; the mapper is total, so no missing
field can raise an error. -/
theorem c2_field_mapper_values (fields : FieldSet) :
    build_values_from_fields fields =
      [fields "record_id", fields "Startup name", fields "PH1_Constitution_Location",
        fields "date_sourced"]
    ∧ (build_values_from_fields fields).length = FIELDS_LIST.length
    ∧ ∀ i (hi : i < FIELDS_LIST.length) (hv : i < (build_values_from_fields fields).length),
        ((build_values_from_fields fields).get ⟨i, hv⟩ = none
          ↔ fields (FIELDS_LIST.get ⟨i, hi⟩) = none) := by
  refine ⟨rfl, rfl, ?_⟩
  intro i hi hv
  have hi4 : i < 4 := by simpa [FIELDS_LIST] using hi
  interval_cases i <;> exact Iff.rfl

theorem c2_field_mapper_values_witness :
    ((build_values_from_fields exampleFields).get ⟨0, by decide⟩ = none
      ↔ exampleFields (FIELDS_LIST.get ⟨0, by decide⟩) = none) :=
  (c2_field_mapper_values exampleFields).2.2 0 (by decide) (by decide)

/-- C3: two Field Sets that agree on every mapped field name produce the
same value list and the same INSERT and UPDATE parameter lists and table
states; keys outside the mapping never influence the result. -/
theorem c3_unmapped_fields_ignored (id : String) (f1 f2 : FieldSet)
    (h : ∀ k ∈ FIELDS_LIST, f1 k = f2 k) :
    build_values_from_fields f1 = build_values_from_fields f2
    ∧ create_record_values id f1 = create_record_values id f2
    ∧ update_record_values id f1 = update_record_values id f2
    ∧ ∀ db : DB,
        create_record_in_postgres db id f1 = create_record_in_postgres db id f2
        ∧ update_record_in_postgres db id f1 = update_record_in_postgres db id f2 := by
  have hb : build_values_from_fields f1 = build_values_from_fields f2 := by
    rw [build_values_eq_map, build_values_eq_map]
    exact List.map_congr_left h
  refine ⟨hb, ?_, ?_, ?_⟩
  · rw [create_record_values, create_record_values, hb]
  · rw [update_record_values, update_record_values, hb]
  · intro db
    constructor
    · rw [create_record_in_postgres, create_record_in_postgres, hb]
    · rw [update_record_in_postgres, update_record_in_postgres, hb]

/-- Concrete Field Set equal to `exampleFields` on every mapped field but
carrying one extra, unmapped key. -/
def exampleFieldsExtra : FieldSet := fun k =>
  if k == "Unmapped Extra" then some (Value.int 7) else exampleFields k

theorem c3_unmapped_fields_ignored_witness :
    build_values_from_fields exampleFields = build_values_from_fields exampleFieldsExtra :=
  (c3_unmapped_fields_ignored "rec1" exampleFields exampleFieldsExtra
    (by
      intro k hk
      simp only [FIELDS_LIST, List.mem_cons, List.not_mem_nil, or_false] at hk
      rcases hk with rfl | rfl | rfl | rfl <;> rfl)).1

/-- C4: the INSERT statement lists the identifier column and then the
mapped columns in mapping order, with one positional placeholder per
column in the same order, and create passes the parameters
identifier followed by the mapped values; the UPDATE statement sets every
mapped column via positional placeholders and filters by the identifier
column, and update passes the mapped values followed by the identifier. -/
theorem c4_query_shapes (t id : String) (fields : FieldSet) :
    build_insert_query t =
      "\n        INSERT INTO " ++ t ++ " (" ++
        "airtable_id, record_id, Startup name, PH1_Constitution_Location, date_sourced" ++
        ")\n        VALUES (" ++ "%s, %s, %s, %s, %s" ++ ")\n    "
    ∧ build_update_query t =
      "\n        UPDATE " ++ t ++ "\n        SET " ++
        "record_id = %s, Startup name = %s, PH1_Constitution_Location = %s, date_sourced = %s" ++
        "\n        WHERE airtable_id = %s\n    "
    ∧ create_record_values id fields =
        [some (Value.str id), fields "record_id", fields "Startup name",
          fields "PH1_Constitution_Location", fields "date_sourced"]
    ∧ update_record_values id fields =
        [fields "record_id", fields "Startup name", fields "PH1_Constitution_Location",
          fields "date_sourced", some (Value.str id)] :=
  ⟨build_insert_query_eq t, build_update_query_eq t, rfl, rfl⟩

/-- C5: syncing an identifier that already has a row reports
"updated record", leaves the total row count unchanged, and overwrites the
mapped columns of every row with that identifier with the values looked up
from the latest Field Set, so a mapped field absent from the later Field
Set is stored as the null marker rather than kept at its prior value. -/
theorem c5_update_overwrites_all_mapped (db : DB) (p : AirtablePayload)
    (h : ∃ r ∈ db, r.airtable_id = p.id) :
    (sync_airtable_record db p).1 = "updated record"
    ∧ ((sync_airtable_record db p).2).length = db.length
    ∧ ∀ r ∈ (sync_airtable_record db p).2, r.airtable_id = p.id →
        r.vals = FIELDS_LIST.map p.fields := by
  obtain ⟨r0, hr0, hid⟩ := h
  cases hfind : find_record_by_id db p.id with
  | none =>
    exact absurd (by simp [hid]) (List.find?_eq_none.mp hfind r0 hr0)
  | some r1 =>
    refine ⟨by simp [sync_airtable_record, hfind], ?_, ?_⟩
    · simp [sync_airtable_record, hfind, update_record_in_postgres]
    · intro r hr hrid
      simp only [sync_airtable_record, hfind, update_record_in_postgres] at hr
      obtain ⟨s, hs, hres⟩ := List.mem_map.mp hr
      by_cases hmatch : (s.airtable_id == p.id) = true
      · rw [if_pos hmatch] at hres
        rw [← hres]
        exact build_values_eq_map p.fields
      · rw [if_neg hmatch] at hres
        rw [← hres] at hrid
        exact absurd hrid (by simpa using hmatch)

/-- Concrete one-row table used as a witness state. -/
def exampleDB : DB := [⟨"rec1", [none, none, none, none]⟩]

theorem c5_update_overwrites_all_mapped_witness :
    (sync_airtable_record exampleDB examplePayload).1 = "updated record"
    ∧ ((sync_airtable_record exampleDB examplePayload).2).length = exampleDB.length := by
  have h := c5_update_overwrites_all_mapped exampleDB examplePayload (by decide)
  exact ⟨h.1, h.2.1⟩

/-- C6: the worked example. Sending the payload with id "rec1" and fields
Startup name = "Acme", date_sourced = "2024-01-01" twice, starting from a
state with no row for "rec1": the first call creates exactly the row with
airtable_id "rec1", Startup name "Acme", PH1_Constitution_Location null
and date_sourced "2024-01-01" (record_id is null as well); the second call
updates that same row, the row count stays 1, and the second action label
is "updated record". -/
theorem c6_example_payload_twice :
    sync_airtable_record [] examplePayload =
      ("created record",
        [⟨"rec1", [none, some (Value.str "Acme"), none, some (Value.str "2024-01-01")]⟩])
    ∧ sync_airtable_record (sync_airtable_record [] examplePayload).2 examplePayload =
      ("updated record",
        [⟨"rec1", [none, some (Value.str "Acme"), none, some (Value.str "2024-01-01")]⟩])
    ∧ ((sync_airtable_record (sync_airtable_record [] examplePayload).2 examplePayload).2).length
        = 1 := by
  decide

/-- C7: the webhook handler closes the connection on every exit path; when
the sync raises an exception the transaction is rolled back, the committed
state is exactly the pre-request state, and the response is a 500 carrying
the exception message; when the sync succeeds the new state is committed
and the response is a 200 with the action label. -/
theorem c7_webhook_txn_lifecycle (db : DB) (p : AirtablePayload) (fault : Option String) :
    (airtable_webhook db p fault).connClosed = true
    ∧ (∀ msg, fault = some msg →
        airtable_webhook db p fault = ⟨500, none, none, some msg, db, true⟩)
    ∧ (fault = none →
        airtable_webhook db p fault =
          ⟨200, some true, some (sync_airtable_record db p).1, none,
            (sync_airtable_record db p).2, true⟩) := by
  refine ⟨?_, ?_, ?_⟩
  · cases fault <;> rfl
  · intro msg hm
    rw [hm]
    rfl
  · intro hn
    rw [hn]
    rfl

theorem c7_webhook_txn_lifecycle_witness :
    airtable_webhook exampleDB examplePayload (some "db boom") =
      ⟨500, none, none, some "db boom", exampleDB, true⟩ :=
  (c7_webhook_txn_lifecycle exampleDB examplePayload (some "db boom")).2.1 "db boom" rfl

/-- C8: invoking update for an identifier with no matching row is a silent
success: the operation is total (it signals no failure) and the table
state is unchanged, since the UPDATE matches zero rows and the code never
re-checks existence or inspects the affected-row count. -/
theorem c8_update_missing_row_noop (db : DB) (id : String) (fields : FieldSet)
    (h : ∀ r ∈ db, r.airtable_id ≠ id) :
    update_record_in_postgres db id fields = db := by
  unfold update_record_in_postgres
  conv_rhs => rw [← List.map_id db]
  apply List.map_congr_left
  intro r hr
  simp [h r hr]

theorem c8_update_missing_row_noop_witness :
    update_record_in_postgres exampleDB "recOther" exampleFields = exampleDB :=
  c8_update_missing_row_noop exampleDB "recOther" exampleFields (by decide)

/-- C9: the identifier column is immutable under update: the sequence of
identifier-column values of the table is unchanged by any update (so every
existing row keeps its identifier), and the column "airtable_id" is not
among the columns placed in the SET clause of the UPDATE statement. -/
theorem c9_identifier_immutable (db : DB) (id : String) (fields : FieldSet) :
    (update_record_in_postgres db id fields).map (fun r => r.airtable_id)
      = db.map (fun r => r.airtable_id)
    ∧ "airtable_id" ∉ FIELD_MAP_values := by
  constructor
  · unfold update_record_in_postgres
    rw [List.map_map]
    apply List.map_congr_left
    intro r _
    simp only [Function.comp]
    split <;> rfl
  · decide

theorem countPercent_append (a b : String) :
    countPercent (a ++ b) = countPercent a + countPercent b := by
  simp [countPercent, String.data_append, List.countP_append]

/-- C10: the number of positional placeholders in the built INSERT equals
the length of the parameter list that create passes (1 plus the number of
mapped fields), and likewise for the UPDATE and the parameter list that
update passes (number of mapped fields plus 1), provided the configured
table name contains no percent character; so neither execution can fail
from a placeholder/parameter arity mismatch. -/
theorem c10_placeholder_arity (t id : String) (fields : FieldSet)
    (h : countPercent t = 0) :
    countPercent (build_insert_query t) = (create_record_values id fields).length
    ∧ (create_record_values id fields).length = 1 + FIELDS_LIST.length
    ∧ countPercent (build_update_query t) = (update_record_values id fields).length
    ∧ (update_record_values id fields).length = FIELDS_LIST.length + 1 := by
  have hc : (create_record_values id fields).length = 5 := by
    simp [create_record_values, build_values_from_fields, FIELD_MAP_keys, FIELD_MAP, FIELDS_LIST]
  have hu : (update_record_values id fields).length = 5 := by
    simp [update_record_values, build_values_from_fields, FIELD_MAP_keys, FIELD_MAP, FIELDS_LIST]
  refine ⟨?_, ?_, ?_, ?_⟩
  · rw [build_insert_query_eq, hc]
    simp [countPercent_append, h]
    decide
  · rw [hc]
    decide
  · rw [build_update_query_eq, hu]
    simp [countPercent_append, h]
    decide
  · rw [hu]
    decide

theorem c10_placeholder_arity_witness :
    countPercent (build_insert_query "startups") =
      (create_record_values "rec1" exampleFields).length :=
  (c10_placeholder_arity "startups" "rec1" exampleFields (by decide)).1
